import Mathlib

/-!
# Verification of the note-connections-analyzer plugin (src/main.ts)

Shallow embedding of the single-file Obsidian plugin `src/main.ts`.

Modelling decisions, recorded once here:

* A vault document (`TFile` together with the result of `vault.read`) is a
  `Doc`: its `basename` and the outcome of reading its body.  `vault.read`
  can reject; `readResult` is `Except.error msg` in that case (the message
  text is host-defined and carried opaquely).
* JavaScript's `Array.prototype.sort` with the comparator
  `() => 0.5 - Math.random()` produces some permutation of the array whose
  order we cannot predict.  The shuffle outcome is therefore an explicit
  `shuffled` list, constrained by a `List.Perm` hypothesis in theorems.
* A JavaScript value that may be `undefined` is an `Option`; interpolating
  `undefined` into a template literal yields the string "undefined"
  (`jsTemplateString`).  Accessing a property of `undefined` throws a
  `TypeError`; the host-defined message is modelled by `typeErrorMsg`.
* `fetch` either rejects (network failure, `Except.error`) or delivers an
  `HttpResponse` with a numeric status and a parsed JSON body
  (`ResponseData`, with every field optional as in dynamic JS).
  `Response.ok` is `200 <= status < 300` per the Fetch standard.
* `new Date().toISOString().split('T')[0]` is the current date rendered as
  YYYY-MM-DD; it enters the model as the `today` field of the environment.
* The ribbon-icon callback (the whole try/catch in `onload`) is the pure
  function `run : Env -> RunResult`, accumulating the observable effects:
  notices shown, HTTP requests issued, documents created, documents opened,
  errors logged to the console.
-/

deriving instance DecidableEq for Except

/-- A vault markdown document: its `basename` (title) and the outcome of
`this.app.vault.read(file)` on it. -/
structure Doc where
  basename : String
  readResult : Except String String
deriving DecidableEq, Repr

/-- `getRandomNotes(count)` from src/main.ts lines 70-74:
`files.sort(() => 0.5 - Math.random())` permutes `files` (the permutation is
the explicit `shuffled` argument), and
`shuffled.slice(0, Math.min(count, files.length))` takes that prefix. -/
def getRandomNotes (files shuffled : List Doc) (count : Nat) : List Doc :=
  shuffled.take (min count files.length)

/-- JavaScript `Array.prototype.join(sep)`: empty array gives "", otherwise
the elements separated by `sep`. -/
def joinSep (sep : String) : List String → String
  | [] => ""
  | [s] => s
  | s :: t :: rest => s ++ sep ++ joinSep sep (t :: rest)

/-- One element of `noteContents.map((content, i) => ...)` in the prompt
template (src/main.ts line 80): the body labeled `Note ${i + 1}:`. -/
def noteSegment (i : Nat) (content : String) : String :=
  "Note " ++ toString (i + 1) ++ ":\n" ++ content ++ "\n---"

/-- JavaScript `Array.prototype.map` with its index argument, specialised to
the prompt template callback, starting from index `i`. -/
def numberedSegments (i : Nat) : List String → List String
  | [] => []
  | c :: rest => noteSegment i c :: numberedSegments (i + 1) rest

/-- The fixed instruction paragraph of the prompt template
(src/main.ts lines 77-79), up to and including the blank line before the
interpolated note list. -/
def promptPreamble : String :=
  "I am sending you ten random notes from my knowledge database. Your goal is to extract and identify novel, unconventional, and interesting connections between the ideas presented in the notes. These connections should be concise yet insightful and challenge conventional thinking, revealing patterns, relationships, or implications I may not have noticed. Avoid generic or obvious observations and focus on linking the ideas in ways that are intellectually stimulating and potentially actionable. Provide a summary of your findings, highlighting the most unique and valuable insights.\nNotes:\n\n"

/-- The prompt template literal of `analyzeWithGPT4` (src/main.ts lines
77-80): the fixed preamble followed by
`noteContents.map((content, i) => ...).join('\n')`. -/
def buildPrompt (noteContents : List String) : String :=
  promptPreamble ++ joinSep "\n" (numberedSegments 0 noteContents)

/-- The `message` objects inside the response JSON: `content` may be absent
(`none` models JS `undefined`). -/
structure RespMessage where
  content : Option String
deriving DecidableEq, Repr

/-- One element of the response's `choices` array; `message` may be absent. -/
structure RespChoice where
  message : Option RespMessage
deriving DecidableEq, Repr

/-- The parsed JSON body returned by `response.json()`; the `choices` field
itself may be absent. -/
structure ResponseData where
  choices : Option (List RespChoice)
deriving DecidableEq, Repr

/-- An HTTP response delivered by `fetch`: its status code and parsed body. -/
structure HttpResponse where
  status : Nat
  data : ResponseData
deriving DecidableEq, Repr

/-- `Response.ok` per the Fetch standard: status in the range 200-299. -/
def respOk (r : HttpResponse) : Bool :=
  decide (200 ≤ r.status) && decide (r.status < 300)

/-- The host-defined message of the `TypeError` thrown by a property access
on `undefined` (exact wording is engine-specific; it is carried opaquely). -/
def typeErrorMsg : String :=
  "Cannot read properties of undefined"

/-- `data.choices[0].message.content` (src/main.ts line 103) under JS
semantics: indexing/dereferencing an absent value throws a `TypeError`, but
an absent final `content` field merely evaluates to `undefined` (`none`). -/
def getContent (data : ResponseData) : Except String (Option String) :=
  match data.choices with
  | none => Except.error typeErrorMsg
  | some [] => Except.error typeErrorMsg
  | some (c :: _) =>
    match c.message with
    | none => Except.error typeErrorMsg
    | some m => Except.ok m.content

/-- Response handling of `analyzeWithGPT4` (src/main.ts lines 98-103):
`if (!response.ok) throw new Error('Failed to get response from GPT-4')`,
otherwise extract `data.choices[0].message.content`. -/
def handleResponse (resp : HttpResponse) : Except String (Option String) :=
  if respOk resp then getContent resp.data
  else Except.error "Failed to get response from GPT-4"

/-- `analyzeWithGPT4` after the request is issued: a rejected `fetch`
propagates its error, a delivered response goes through `handleResponse`. -/
def analyzeWithGPT4 (transport : Except String HttpResponse) :
    Except String (Option String) :=
  match transport with
  | Except.error e => Except.error e
  | Except.ok resp => handleResponse resp

/-- One outbound message of the request body (`{ role: ..., content: ... }`). -/
structure ChatMessageOut where
  role : String
  content : String
deriving DecidableEq, Repr

/-- The observable content of the `fetch` call in `analyzeWithGPT4`
(src/main.ts lines 82-96): URL, method, headers, and JSON body fields.
`temperature` is the exact decimal literal 0.7 of the source, as a rational. -/
structure ChatRequest where
  url : String
  method : String
  authorization : String
  contentType : String
  model : String
  messages : List ChatMessageOut
  temperature : ℚ
deriving DecidableEq, Repr

/-- The request `analyzeWithGPT4` issues, as a function of the stored API key
and the built prompt (src/main.ts lines 82-96). -/
def mkRequest (apiKey prompt : String) : ChatRequest :=
  { url := "https://api.openai.com/v1/chat/completions"
    method := "POST"
    authorization := "Bearer " ++ apiKey
    contentType := "application/json"
    model := "gpt-4"
    messages := [⟨"user", prompt⟩]
    temperature := 7 / 10 }

/-- Interpolating a possibly-`undefined` JS string value into a template
literal: `undefined` renders as the text "undefined". -/
def jsTemplateString : Option String → String
  | none => "undefined"
  | some s => s

/-- `formatAnalysis` (src/main.ts lines 106-115), as a function of the
files' basenames and the analysis text: the fixed template literal with
`files.map(file => ...).join('\n')` interpolated. -/
def formatAnalysis (basenames : List String) (analysis : String) : String :=
  "# Note Connections Analysis\n\n## Analyzed Notes\n" ++
    joinSep "\n" (basenames.map fun b => "- [[" ++ b ++ "]]") ++
    "\n\n## Analysis\n" ++ analysis ++ "\n"

/-- `Promise.all(notes.map(file => this.app.vault.read(file)))`
(src/main.ts lines 45-47): all bodies in order, or the first rejection. -/
def readAll : List Doc → Except String (List String)
  | [] => Except.ok []
  | d :: rest =>
    match d.readResult with
    | Except.error e => Except.error e
    | Except.ok s =>
      match readAll rest with
      | Except.error e => Except.error e
      | Except.ok ss => Except.ok (s :: ss)

/-- The name of the created report document (src/main.ts line 53), with
`today` standing for `new Date().toISOString().split('T')[0]`. -/
def reportName (today : String) : String :=
  "Note Connections Analysis " ++ today ++ ".md"

/-- Everything outside the plugin that a single run can observe: the stored
API key, the vault's markdown files, the shuffle outcome, the transport
behaviour of the one `fetch`, and the current date. -/
structure Env where
  apiKey : String
  files : List Doc
  shuffled : List Doc
  transport : Except String HttpResponse
  today : String
deriving Repr

/-- The observable effects of one run of the ribbon-icon callback, each in
chronological order: notices shown, HTTP requests issued, documents created
(path and content), documents opened, errors logged via `console.error`. -/
structure RunResult where
  notices : List String
  requests : List ChatRequest
  created : List (String × String)
  opened : List String
  loggedErrors : List String
deriving DecidableEq, Repr

/-- The notice shown when the API key is unset (src/main.ts line 31). -/
def apiKeyNotice : String :=
  "Please set your OpenAI API key in the plugin settings"

/-- The notice shown when the vault has no markdown files
(src/main.ts line 38). -/
def noNotesNotice : String :=
  "No notes found in vault"

/-- The ribbon-icon callback of `onload` (src/main.ts lines 28-64): the
whole try/catch workflow as a pure function of the environment.  A thrown
error with message `m` is caught at the top and becomes the notice
`"Error: " ++ m` plus one `console.error` record. -/
def run (env : Env) : RunResult :=
  if env.apiKey = "" then
    ⟨[apiKeyNotice], [], [], [], []⟩
  else if (getRandomNotes env.files env.shuffled 10).length = 0 then
    ⟨[noNotesNotice], [], [], [], []⟩
  else
    match readAll (getRandomNotes env.files env.shuffled 10) with
    | Except.error e =>
      ⟨["Analyzing " ++
          toString (getRandomNotes env.files env.shuffled 10).length ++
          " notes...", "Error: " ++ e], [], [], [], [e]⟩
    | Except.ok contents =>
      match analyzeWithGPT4 env.transport with
      | Except.error e =>
        ⟨["Analyzing " ++
            toString (getRandomNotes env.files env.shuffled 10).length ++
            " notes...", "Error: " ++ e],
         [mkRequest env.apiKey (buildPrompt contents)], [], [], [e]⟩
      | Except.ok content =>
        ⟨["Analyzing " ++
            toString (getRandomNotes env.files env.shuffled 10).length ++
            " notes..."],
         [mkRequest env.apiKey (buildPrompt contents)],
         [(reportName env.today,
           formatAnalysis
             ((getRandomNotes env.files env.shuffled 10).map
               fun d => d.basename)
             (jsTemplateString content))],
         [reportName env.today], []⟩

/-- C1: For every list of available documents of size M and every requested
count N, `getRandomNotes` returns exactly `min N M` documents, all distinct,
and every returned document is an element of the input document list.  The
input is a document *set* (the host's distinct markdown files), hence the
`Nodup` hypothesis; the shuffle is an arbitrary permutation of the input. -/
theorem getRandomNotes_spec (files shuffled : List Doc) (count : Nat)
    (hperm : shuffled.Perm files) (hnd : files.Nodup) :
    (getRandomNotes files shuffled count).length = min count files.length ∧
    (getRandomNotes files shuffled count).Nodup ∧
    ∀ d ∈ getRandomNotes files shuffled count, d ∈ files := by
  refine ⟨?_, ?_, ?_⟩
  · simp [getRandomNotes, List.length_take, hperm.length_eq,
      Nat.min_assoc, Nat.min_self]
  · exact ((List.take_sublist _ _).nodup (hperm.symm.nodup hnd))
  · intro d hd
    exact hperm.subset (List.mem_of_mem_take hd)

/-- Witness for C1 on a concrete two-document vault and count 1, with the
transposition as the shuffle outcome. -/
theorem getRandomNotes_spec_witness :
    (getRandomNotes [⟨"A", Except.ok "a"⟩, ⟨"B", Except.ok "b"⟩]
        [⟨"B", Except.ok "b"⟩, ⟨"A", Except.ok "a"⟩] 1).length = min 1 2 ∧
    (getRandomNotes [⟨"A", Except.ok "a"⟩, ⟨"B", Except.ok "b"⟩]
        [⟨"B", Except.ok "b"⟩, ⟨"A", Except.ok "a"⟩] 1).Nodup ∧
    ∀ d ∈ getRandomNotes [⟨"A", Except.ok "a"⟩, ⟨"B", Except.ok "b"⟩]
        [⟨"B", Except.ok "b"⟩, ⟨"A", Except.ok "a"⟩] 1,
      d ∈ [⟨"A", Except.ok "a"⟩, ⟨"B", Except.ok "b"⟩] :=
  getRandomNotes_spec
    [⟨"A", Except.ok "a"⟩, ⟨"B", Except.ok "b"⟩]
    [⟨"B", Except.ok "b"⟩, ⟨"A", Except.ok "a"⟩] 1
    (List.Perm.swap _ _ _) (by decide)

/-- Modelled from the spec: "contains each input body exactly once, each
labeled with its 1-based position number, in the given input order" — the
bodies written out one after another, the body numbered `n` first, separated
by single newlines. -/
def labeledBodies (n : Nat) : List String → String
  | [] => ""
  | [c] => "Note " ++ toString n ++ ":\n" ++ c ++ "\n---"
  | c :: c2 :: rest =>
    "Note " ++ toString n ++ ":\n" ++ c ++ "\n---" ++ "\n" ++
      labeledBodies (n + 1) (c2 :: rest)

/-- The indexed map-then-join of the source equals the direct left-to-right
spelling `labeledBodies`, with 1-based numbers. -/
theorem joinSep_numberedSegments (l : List String) :
    ∀ i, joinSep "\n" (numberedSegments i l) = labeledBodies (i + 1) l := by
  induction l with
  | nil => intro i; rfl
  | cons c rest ih =>
    intro i
    cases rest with
    | nil => rfl
    | cons c2 rest2 =>
      have h := ih (i + 1)
      simp only [numberedSegments, noteSegment] at h
      simp only [numberedSegments, joinSep, labeledBodies, noteSegment]
      rw [h]

/-- Every member of a list is an infix (as character data) of its
`joinSep`. -/
theorem mem_joinSep_contains (sep : String) (l : List String) (s : String)
    (h : s ∈ l) : s.data <:+: (joinSep sep l).data := by
  induction l with
  | nil => cases h
  | cons c rest ih =>
    cases rest with
    | nil =>
      rw [List.mem_singleton.mp h]
      exact List.infix_refl _
    | cons c2 rest2 =>
      rcases List.mem_cons.mp h with rfl | h2
      · refine ⟨[], (sep ++ joinSep sep (c2 :: rest2)).data, ?_⟩
        simp [joinSep, String.data_append, List.append_assoc]
      · obtain ⟨u, v, huv⟩ := ih h2
        refine ⟨(c ++ sep).data ++ u, v, ?_⟩
        simp only [joinSep, String.data_append, List.append_assoc, ← huv]

/-- Each body is an infix of its own labeled segment. -/
theorem infix_noteSegment (i : Nat) (c : String) :
    c.data <:+: (noteSegment i c).data := by
  refine ⟨("Note " ++ toString (i + 1) ++ ":\n").data, "\n---".data, ?_⟩
  simp [noteSegment, String.data_append, List.append_assoc]

/-- Every body of the input list has a labeled segment among
`numberedSegments`. -/
theorem exists_segment_of_mem (c : String) (l : List String) (hc : c ∈ l) :
    ∀ i, ∃ j, noteSegment j c ∈ numberedSegments i l := by
  induction l with
  | nil => cases hc
  | cons a rest ih =>
    intro i
    rcases List.mem_cons.mp hc with rfl | h2
    · exact ⟨i, List.mem_cons_self _ _⟩
    · obtain ⟨j, hj⟩ := ih h2 (i + 1)
      exact ⟨j, List.mem_cons_of_mem _ hj⟩

/-- C2: For every ordered sequence of document body strings (including empty
strings and strings containing the delimiter text), the prompt builder
produces a single string consisting of the fixed preamble followed by each
input body exactly once, labeled with its 1-based position number, in the
given input order (`labeledBodies 1`); in particular every input body occurs
in the output. -/
theorem buildPrompt_spec (noteContents : List String) :
    buildPrompt noteContents = promptPreamble ++ labeledBodies 1 noteContents ∧
    ∀ c ∈ noteContents, c.data <:+: (buildPrompt noteContents).data := by
  constructor
  · unfold buildPrompt
    rw [joinSep_numberedSegments]
  · intro c hc
    obtain ⟨j, hj⟩ := exists_segment_of_mem c noteContents hc 0
    have h1 : c.data <:+: (joinSep "\n" (numberedSegments 0 noteContents)).data :=
      (infix_noteSegment j c).trans (mem_joinSep_contains _ _ _ hj)
    obtain ⟨u, v, huv⟩ := h1
    exact ⟨promptPreamble.data ++ u, v, by
      simp only [buildPrompt, String.data_append, List.append_assoc, ← huv]⟩

/-- Witness for C2 at a concrete two-body input, one body empty and the
other containing the delimiter text. -/
theorem buildPrompt_spec_witness :
    buildPrompt ["", "x\n---\ny"] =
      promptPreamble ++ labeledBodies 1 ["", "x\n---\ny"] ∧
    ("" : String).data <:+: (buildPrompt ["", "x\n---\ny"]).data :=
  ⟨(buildPrompt_spec ["", "x\n---\ny"]).1,
    (buildPrompt_spec ["", "x\n---\ny"]).2 "" (by decide)⟩

/-- Modelled from the spec: "a bullet list with one `- [[title]]` entry per
document in order", newline-separated. -/
def bulletList : List String → String
  | [] => ""
  | [t] => "- [[" ++ t ++ "]]"
  | t :: t2 :: rest => "- [[" ++ t ++ "]]" ++ "\n" ++ bulletList (t2 :: rest)

/-- The map-then-join of the source equals the direct spelling
`bulletList`. -/
theorem joinSep_bulletList (titles : List String) :
    joinSep "\n" (titles.map fun t => "- [[" ++ t ++ "]]") =
      bulletList titles := by
  induction titles with
  | nil => rfl
  | cons t rest ih =>
    cases rest with
    | nil => rfl
    | cons t2 rest2 =>
      simp only [List.map, joinSep, bulletList] at ih ⊢
      rw [ih]

/-- C4: For every list of source document titles and every analysis string,
`formatAnalysis` produces exactly the fixed Markdown template: a heading, a
bullet list with one `- [[title]]` entry per document in order, a second
heading, then the raw analysis text; in particular for titles ["A", "B"] and
analysis "Z" the body is that template instantiated with the two bullets
followed by "Z". -/
theorem formatAnalysis_spec :
    (∀ (titles : List String) (analysis : String),
      formatAnalysis titles analysis =
        "# Note Connections Analysis\n\n## Analyzed Notes\n" ++
          bulletList titles ++ "\n\n## Analysis\n" ++ analysis ++ "\n") ∧
    formatAnalysis ["A", "B"] "Z" =
      "# Note Connections Analysis\n\n## Analyzed Notes\n- [[A]]\n- [[B]]\n\n## Analysis\nZ\n" := by
  constructor
  · intro titles analysis
    unfold formatAnalysis
    rw [joinSep_bulletList]
  · decide

/-- C3: For every transport response: if the response has HTTP status 200
and JSON body with `choices[0].message.content = x`, `analyzeWithGPT4`
returns exactly `x`; if the response has any non-2xx status, it fails with
the request-failed error and returns no partial result. -/
theorem analyzeWithGPT4_spec (status : Nat) (x : String)
    (rest : List RespChoice) (data : ResponseData) :
    (status = 200 →
      analyzeWithGPT4
          (Except.ok ⟨status, ⟨some (⟨some ⟨some x⟩⟩ :: rest)⟩⟩) =
        Except.ok (some x)) ∧
    (¬ (200 ≤ status ∧ status < 300) →
      analyzeWithGPT4 (Except.ok ⟨status, data⟩) =
        Except.error "Failed to get response from GPT-4") := by
  constructor
  · intro h
    subst h
    rfl
  · intro h
    have hok : respOk ⟨status, data⟩ = false := by
      simp only [respOk, Bool.and_eq_false_iff, decide_eq_false_iff_not]
      omega
    simp [analyzeWithGPT4, handleResponse, hok]

/-- Witness for C3: a 200 response with content "X" yields "X"; a 404
response yields the request-failed error. -/
theorem analyzeWithGPT4_spec_witness :
    analyzeWithGPT4 (Except.ok ⟨200, ⟨some [⟨some ⟨some "X"⟩⟩]⟩⟩) =
      Except.ok (some "X") ∧
    analyzeWithGPT4 (Except.ok ⟨404, ⟨some [⟨some ⟨some "X"⟩⟩]⟩⟩) =
      Except.error "Failed to get response from GPT-4" :=
  ⟨(analyzeWithGPT4_spec 200 "X" [] ⟨none⟩).1 rfl,
    (analyzeWithGPT4_spec 404 "X" [] ⟨some [⟨some ⟨some "X"⟩⟩]⟩).2
      (by omega)⟩

/-- C5: If the configured API key is the empty string, triggering the
analysis action produces exactly one user notice (the API-key notice),
creates zero new documents, performs zero network calls, opens nothing and
logs nothing: the run aborts before any I/O. -/
theorem run_emptyApiKey (env : Env) (h : env.apiKey = "") :
    run env = ⟨[apiKeyNotice], [], [], [], []⟩ := by
  simp [run, h]

/-- Witness for C5 on a concrete environment with an empty key. -/
theorem run_emptyApiKey_witness :
    run ⟨"", [⟨"A", Except.ok "a"⟩], [⟨"A", Except.ok "a"⟩],
        Except.error "network down", "2026-10-11"⟩ =
      ⟨[apiKeyNotice], [], [], [], []⟩ :=
  run_emptyApiKey
    ⟨"", [⟨"A", Except.ok "a"⟩], [⟨"A", Except.ok "a"⟩],
      Except.error "network down", "2026-10-11"⟩ rfl

/-- C6: When the document set is empty, the sampler returns an empty result
and the run aborts with the "no notes found" notice, without issuing any
network request and without creating or opening any document. -/
theorem run_emptyVault (env : Env) (hk : env.apiKey ≠ "")
    (hf : env.files = []) (hperm : env.shuffled.Perm env.files) :
    getRandomNotes env.files env.shuffled 10 = [] ∧
    run env = ⟨[noNotesNotice], [], [], [], []⟩ := by
  have hs : env.shuffled = [] := by
    rw [hf] at hperm
    exact List.Perm.eq_nil hperm
  constructor
  · simp [getRandomNotes, hs]
  · simp [run, hk, getRandomNotes, hs]

/-- Witness for C6 on a concrete empty vault with a set key. -/
theorem run_emptyVault_witness :
    getRandomNotes ([] : List Doc) [] 10 = [] ∧
    run ⟨"sk-key", [], [], Except.error "network down", "2026-10-11"⟩ =
      ⟨[noNotesNotice], [], [], [], []⟩ :=
  run_emptyVault ⟨"sk-key", [], [], Except.error "network down", "2026-10-11"⟩
    (by decide) rfl (List.Perm.refl _)

/-- If every document in the list reads successfully, `readAll` succeeds. -/
theorem readAll_ok_of_forall (l : List Doc)
    (h : ∀ d ∈ l, ∃ s, d.readResult = Except.ok s) :
    ∃ contents, readAll l = Except.ok contents := by
  induction l with
  | nil => exact ⟨[], rfl⟩
  | cons d rest ih =>
    obtain ⟨s, hs⟩ := h d (List.mem_cons_self d rest)
    obtain ⟨cs, hcs⟩ := ih fun d2 hd2 => h d2 (List.mem_cons_of_mem _ hd2)
    exact ⟨s :: cs, by simp [readAll, hs, hcs]⟩

/-- The sampled notes all come from the vault's file list. -/
theorem sampled_subset (env : Env) (hperm : env.shuffled.Perm env.files) :
    ∀ d ∈ getRandomNotes env.files env.shuffled 10, d ∈ env.files :=
  fun _ hd => hperm.subset (List.mem_of_mem_take hd)

/-- A nonempty vault yields a nonempty sample. -/
theorem sampled_length_ne_zero (env : Env)
    (hperm : env.shuffled.Perm env.files) (hne : env.files ≠ []) :
    (getRandomNotes env.files env.shuffled 10).length ≠ 0 := by
  have hf : env.files.length ≠ 0 := fun h0 => hne (List.length_eq_zero.mp h0)
  rw [getRandomNotes, List.length_take, hperm.length_eq]
  omega

/-- C7: For every successful run (non-empty key, non-empty document set, all
reads succeed, transport returns a 200 response whose first choice carries
the analysis text `x`), exactly one new document is created, its name is the
literal prefix "Note Connections Analysis " followed by the current date and
".md", its body is the report for the sampled titles and `x` — in particular
it contains every sampled document's title as a `- [[title]]` bullet link
and the analysis text — and that document is opened afterward. -/
theorem run_success (env : Env) (x : String) (rest : List RespChoice)
    (hk : env.apiKey ≠ "")
    (hperm : env.shuffled.Perm env.files)
    (hne : env.files ≠ [])
    (hreads : ∀ d ∈ env.files, ∃ s, d.readResult = Except.ok s)
    (htr : env.transport = Except.ok ⟨200, ⟨some (⟨some ⟨some x⟩⟩ :: rest)⟩⟩) :
    ∃ contents,
      readAll (getRandomNotes env.files env.shuffled 10) =
        Except.ok contents ∧
      run env =
        ⟨["Analyzing " ++
            toString (getRandomNotes env.files env.shuffled 10).length ++
            " notes..."],
         [mkRequest env.apiKey (buildPrompt contents)],
         [(reportName env.today,
           formatAnalysis
             ((getRandomNotes env.files env.shuffled 10).map
               fun d => d.basename) x)],
         [reportName env.today], []⟩ ∧
      (∀ d ∈ getRandomNotes env.files env.shuffled 10,
        ("- [[" ++ d.basename ++ "]]").data <:+:
          (formatAnalysis
            ((getRandomNotes env.files env.shuffled 10).map
              fun d => d.basename) x).data) ∧
      x.data <:+:
        (formatAnalysis
          ((getRandomNotes env.files env.shuffled 10).map
            fun d => d.basename) x).data := by
  have hn := sampled_length_ne_zero env hperm hne
  obtain ⟨contents, hcs⟩ :=
    readAll_ok_of_forall _ fun d hd => hreads d (sampled_subset env hperm d hd)
  refine ⟨contents, hcs, ?_, ?_, ?_⟩
  · simp [run, hk, hn, hcs, htr, analyzeWithGPT4, handleResponse, respOk,
      getContent, jsTemplateString]
  · intro d hd
    have hb : ("- [[" ++ d.basename ++ "]]") ∈
        ((getRandomNotes env.files env.shuffled 10).map
          fun d => d.basename).map fun b => "- [[" ++ b ++ "]]" :=
      List.mem_map_of_mem _ (List.mem_map_of_mem _ hd)
    obtain ⟨u, v, huv⟩ := mem_joinSep_contains "\n" _ _ hb
    exact ⟨("# Note Connections Analysis\n\n## Analyzed Notes\n").data ++ u,
      v ++ ("\n\n## Analysis\n" ++ x ++ "\n").data, by
        simp only [formatAnalysis, String.data_append, List.append_assoc,
          ← huv]⟩
  · exact ⟨("# Note Connections Analysis\n\n## Analyzed Notes\n" ++
        joinSep "\n"
          (((getRandomNotes env.files env.shuffled 10).map
            fun d => d.basename).map fun b => "- [[" ++ b ++ "]]") ++
        "\n\n## Analysis\n").data, ("\n" : String).data, by
      simp only [formatAnalysis, String.data_append, List.append_assoc]⟩

/-- Witness for C7 on a concrete one-document vault. -/
theorem run_success_witness :
    ∃ contents,
      readAll (getRandomNotes [⟨"A", Except.ok "alpha"⟩]
          [⟨"A", Except.ok "alpha"⟩] 10) = Except.ok contents ∧
      run ⟨"sk-key", [⟨"A", Except.ok "alpha"⟩], [⟨"A", Except.ok "alpha"⟩],
          Except.ok ⟨200, ⟨some [⟨some ⟨some "X"⟩⟩]⟩⟩, "2026-10-11"⟩ =
        ⟨["Analyzing " ++
            toString (getRandomNotes [⟨"A", Except.ok "alpha"⟩]
              [⟨"A", Except.ok "alpha"⟩] 10).length ++ " notes..."],
         [mkRequest "sk-key" (buildPrompt contents)],
         [(reportName "2026-10-11",
           formatAnalysis ((getRandomNotes [⟨"A", Except.ok "alpha"⟩]
             [⟨"A", Except.ok "alpha"⟩] 10).map fun d => d.basename) "X")],
         [reportName "2026-10-11"], []⟩ ∧
      (∀ d ∈ getRandomNotes [⟨"A", Except.ok "alpha"⟩]
          [⟨"A", Except.ok "alpha"⟩] 10,
        ("- [[" ++ d.basename ++ "]]").data <:+:
          (formatAnalysis ((getRandomNotes [⟨"A", Except.ok "alpha"⟩]
            [⟨"A", Except.ok "alpha"⟩] 10).map fun d => d.basename)
            "X").data) ∧
      ("X" : String).data <:+:
        (formatAnalysis ((getRandomNotes [⟨"A", Except.ok "alpha"⟩]
          [⟨"A", Except.ok "alpha"⟩] 10).map fun d => d.basename)
          "X").data :=
  run_success
    ⟨"sk-key", [⟨"A", Except.ok "alpha"⟩], [⟨"A", Except.ok "alpha"⟩],
      Except.ok ⟨200, ⟨some [⟨some ⟨some "X"⟩⟩]⟩⟩, "2026-10-11"⟩
    "X" [] (by decide) (List.Perm.refl _) (by decide)
    (by intro d hd; exact ⟨"alpha", by
      rcases List.mem_singleton.mp hd with rfl; rfl⟩)
    rfl

/-- C8: For every run that reaches the remote analyzer, exactly one HTTP
POST is issued to the chat-completions URL with the Bearer authorization
header and JSON content type, and a body with model "gpt-4", a single
user-role message whose content is the built prompt, and temperature 0.7. -/
theorem run_request (env : Env)
    (hk : env.apiKey ≠ "")
    (hperm : env.shuffled.Perm env.files)
    (hne : env.files ≠ [])
    (hreads : ∀ d ∈ env.files, ∃ s, d.readResult = Except.ok s) :
    ∃ contents,
      readAll (getRandomNotes env.files env.shuffled 10) =
        Except.ok contents ∧
      (run env).requests =
        [⟨"https://api.openai.com/v1/chat/completions", "POST",
          "Bearer " ++ env.apiKey, "application/json", "gpt-4",
          [⟨"user", buildPrompt contents⟩], 7 / 10⟩] := by
  have hn := sampled_length_ne_zero env hperm hne
  obtain ⟨contents, hcs⟩ :=
    readAll_ok_of_forall _ fun d hd => hreads d (sampled_subset env hperm d hd)
  refine ⟨contents, hcs, ?_⟩
  cases htr : analyzeWithGPT4 env.transport with
  | error e => simp [run, hk, hn, hcs, htr, mkRequest]
  | ok c => simp [run, hk, hn, hcs, htr, mkRequest]

/-- Witness for C8 on a concrete one-document vault. -/
theorem run_request_witness :
    ∃ contents,
      readAll (getRandomNotes [⟨"A", Except.ok "alpha"⟩]
          [⟨"A", Except.ok "alpha"⟩] 10) = Except.ok contents ∧
      (run ⟨"sk-key", [⟨"A", Except.ok "alpha"⟩], [⟨"A", Except.ok "alpha"⟩],
          Except.error "network down", "2026-10-11"⟩).requests =
        [⟨"https://api.openai.com/v1/chat/completions", "POST",
          "Bearer " ++ "sk-key", "application/json", "gpt-4",
          [⟨"user", buildPrompt contents⟩], 7 / 10⟩] :=
  run_request
    ⟨"sk-key", [⟨"A", Except.ok "alpha"⟩], [⟨"A", Except.ok "alpha"⟩],
      Except.error "network down", "2026-10-11"⟩
    (by decide) (List.Perm.refl _) (by decide)
    (by intro d hd; exact ⟨"alpha", by
      rcases List.mem_singleton.mp hd with rfl; rfl⟩)

/-- C9 counterexample: a 200 response whose first choice carries a `message`
object with no `content` field "lacks choices[0].message.content", yet the
property access merely evaluates to `undefined` instead of throwing, so the
run proceeds: a new document is created (with the text "undefined" as its
analysis section) and opened. -/
theorem run_missingContent_creates :
    (run ⟨"sk-key", [⟨"A", Except.ok "alpha"⟩], [⟨"A", Except.ok "alpha"⟩],
        Except.ok ⟨200, ⟨some [⟨some ⟨none⟩⟩]⟩⟩,
        "2026-10-11"⟩).created.length = 1 ∧
    (run ⟨"sk-key", [⟨"A", Except.ok "alpha"⟩], [⟨"A", Except.ok "alpha"⟩],
        Except.ok ⟨200, ⟨some [⟨some ⟨none⟩⟩]⟩⟩,
        "2026-10-11"⟩).opened ≠ [] := by
  constructor
  · rfl
  · decide

/-- C9 amended: if a step of the run fails before document creation — a
document read fails, or the one network interaction fails (rejected fetch,
non-2xx status, or a response lacking `choices`, `choices[0]`, or
`choices[0].message`, whose property access throws) — then no document is
created and none is opened: the error is caught at the top of the run and
converted to a single error notice (following the progress notice) plus one
console log.  (A response whose first choice has a `message` but no
`content` does not fail: the run then creates a document containing the
text "undefined", per the counterexample.) -/
theorem run_failure_no_create (env : Env)
    (hk : env.apiKey ≠ "")
    (hn : (getRandomNotes env.files env.shuffled 10).length ≠ 0)
    (hfail :
      (∃ e, readAll (getRandomNotes env.files env.shuffled 10) =
        Except.error e) ∨
      (∃ e, analyzeWithGPT4 env.transport = Except.error e)) :
    (run env).created = [] ∧ (run env).opened = [] ∧
    ∃ m, (run env).notices =
        ["Analyzing " ++
            toString (getRandomNotes env.files env.shuffled 10).length ++
            " notes...", "Error: " ++ m] ∧
      (run env).loggedErrors = [m] := by
  rcases hfail with ⟨e, he⟩ | ⟨e, he⟩
  · refine ⟨?_, ?_, e, ?_, ?_⟩ <;> simp [run, hk, hn, he]
  · cases hra : readAll (getRandomNotes env.files env.shuffled 10) with
    | error e2 => refine ⟨?_, ?_, e2, ?_, ?_⟩ <;> simp [run, hk, hn, hra]
    | ok contents => refine ⟨?_, ?_, e, ?_, ?_⟩ <;> simp [run, hk, hn, hra, he]

/-- Witness for amended C9: a concrete run hitting a 500 status creates and
opens nothing and yields the error notice and log. -/
theorem run_failure_no_create_witness :
    (run ⟨"sk-key", [⟨"A", Except.ok "alpha"⟩], [⟨"A", Except.ok "alpha"⟩],
        Except.ok ⟨500, ⟨some [⟨some ⟨some "X"⟩⟩]⟩⟩,
        "2026-10-11"⟩).created = [] ∧
    (run ⟨"sk-key", [⟨"A", Except.ok "alpha"⟩], [⟨"A", Except.ok "alpha"⟩],
        Except.ok ⟨500, ⟨some [⟨some ⟨some "X"⟩⟩]⟩⟩,
        "2026-10-11"⟩).opened = [] ∧
    ∃ m, (run ⟨"sk-key", [⟨"A", Except.ok "alpha"⟩],
        [⟨"A", Except.ok "alpha"⟩],
        Except.ok ⟨500, ⟨some [⟨some ⟨some "X"⟩⟩]⟩⟩,
        "2026-10-11"⟩).notices =
        ["Analyzing " ++
            toString (getRandomNotes [⟨"A", Except.ok "alpha"⟩]
              [⟨"A", Except.ok "alpha"⟩] 10).length ++
            " notes...", "Error: " ++ m] ∧
      (run ⟨"sk-key", [⟨"A", Except.ok "alpha"⟩], [⟨"A", Except.ok "alpha"⟩],
          Except.ok ⟨500, ⟨some [⟨some ⟨some "X"⟩⟩]⟩⟩,
          "2026-10-11"⟩).loggedErrors = [m] :=
  run_failure_no_create
    ⟨"sk-key", [⟨"A", Except.ok "alpha"⟩], [⟨"A", Except.ok "alpha"⟩],
      Except.ok ⟨500, ⟨some [⟨some ⟨some "X"⟩⟩]⟩⟩, "2026-10-11"⟩
    (by decide) (by decide)
    (Or.inr ⟨"Failed to get response from GPT-4", by decide⟩)

/-- C10: The missing-API-key check aborts the run (the abort outcome with
the key notice and no other effect) if and only if the stored key is exactly
the empty string; and every request a run issues carries the stored key in
its Bearer authorization header unchanged, however malformed the key is. -/
theorem run_apiKeyCheck (env : Env) :
    (run env = ⟨[apiKeyNotice], [], [], [], []⟩ ↔ env.apiKey = "") ∧
    ∀ req ∈ (run env).requests,
      req.authorization = "Bearer " ++ env.apiKey := by
  constructor
  · constructor
    · intro h
      by_contra hk
      rw [run, if_neg hk] at h
      by_cases hlen : (getRandomNotes env.files env.shuffled 10).length = 0
      · rw [if_pos hlen] at h
        exact
          (by decide :
            (⟨[noNotesNotice], [], [], [], []⟩ : RunResult) ≠
              ⟨[apiKeyNotice], [], [], [], []⟩) h
      · rw [if_neg hlen] at h
        cases hra : readAll (getRandomNotes env.files env.shuffled 10) with
        | error e =>
          rw [hra] at h
          have h2 := congrArg RunResult.notices h
          simp at h2
        | ok contents =>
          rw [hra] at h
          cases hag : analyzeWithGPT4 env.transport with
          | error e =>
            rw [hag] at h
            have h2 := congrArg RunResult.notices h
            simp at h2
          | ok c =>
            rw [hag] at h
            have h2 := congrArg RunResult.requests h
            simp at h2
    · intro h
      simp [run, h]
  · intro req hreq
    by_cases hk : env.apiKey = ""
    · simp [run, hk] at hreq
    · rw [run, if_neg hk] at hreq
      by_cases hlen : (getRandomNotes env.files env.shuffled 10).length = 0
      · rw [if_pos hlen] at hreq
        simp at hreq
      · rw [if_neg hlen] at hreq
        cases hra : readAll (getRandomNotes env.files env.shuffled 10) with
        | error e =>
          rw [hra] at hreq
          simp at hreq
        | ok contents =>
          rw [hra] at hreq
          cases hag : analyzeWithGPT4 env.transport with
          | error e =>
            rw [hag] at hreq
            simp at hreq
            subst hreq
            rfl
          | ok c =>
            rw [hag] at hreq
            simp at hreq
            subst hreq
            rfl

/-- Witness for C10: applied to a concrete run with the whitespace-only key
" ", whose issued request passes the raw key through to the header. -/
theorem run_apiKeyCheck_witness :
    (mkRequest " " (buildPrompt ["alpha"])).authorization =
      "Bearer " ++ " " :=
  (run_apiKeyCheck
      ⟨" ", [⟨"A", Except.ok "alpha"⟩], [⟨"A", Except.ok "alpha"⟩],
        Except.ok ⟨200, ⟨some [⟨some ⟨some "X"⟩⟩]⟩⟩, "2026-10-11"⟩).2
    (mkRequest " " (buildPrompt ["alpha"]))
    (by
      rw [show (run ⟨" ", [⟨"A", Except.ok "alpha"⟩],
          [⟨"A", Except.ok "alpha"⟩],
          Except.ok ⟨200, ⟨some [⟨some ⟨some "X"⟩⟩]⟩⟩,
          "2026-10-11"⟩).requests =
        [mkRequest " " (buildPrompt ["alpha"])] from rfl]
      exact List.mem_singleton_self _)
